import Mathlib

/-!
Verification of the Grandline fan-site API core (src/main.py, src/schemas.py):
identifier codec, document normalizer, query construction, relationship
assembly, leaderboard view, member-creation guard and seeding routine, embedded
shallowly over a document-store state.
-/

namespace Grandline

/-! ## Identifier codec (bson ObjectId: 24 hex characters, case-insensitive
parse, lowercase canonical print) -/

/-- Value of one hexadecimal digit; accepts both cases, as `bson.ObjectId` does. -/
def hexVal (c : Char) : Option Nat :=
  if '0' ≤ c ∧ c ≤ '9' then some (c.toNat - '0'.toNat)
  else if 'a' ≤ c ∧ c ≤ 'f' then some (c.toNat - 'a'.toNat + 10)
  else if 'A' ≤ c ∧ c ≤ 'F' then some (c.toNat - 'A'.toNat + 10)
  else none

/-- Lowercase hexadecimal digit character, as `str(ObjectId)` prints. -/
def hexChar (n : Nat) : Char :=
  if n < 10 then Char.ofNat ('0'.toNat + n) else Char.ofNat ('a'.toNat + (n - 10))

/-- `k` lowercase hex digits of `n`, most significant first. -/
def encodeOIDAux : Nat → Nat → List Char
  | 0, _ => []
  | k + 1, n => encodeOIDAux k (n / 16) ++ [hexChar (n % 16)]

/-- `str(ObjectId)`: the canonical 24-character lowercase hex string. -/
def encodeOID (n : Nat) : String := ⟨encodeOIDAux 24 n⟩

/-- `ObjectId(s)`: parses a 24-character hex string (either case) to the native
identifier, `none` when malformed (the `InvalidId` exception). -/
def decodeOID (s : String) : Option Nat :=
  if s.length = 24 then
    s.data.foldl
      (fun acc c =>
        match acc, hexVal c with
        | some n, some d => some (n * 16 + d)
        | _, _ => none)
      (some 0)
  else none

/-! ## Stored values and documents -/

/-- A BSON-ish stored value: strings, integers, booleans, null, native
ObjectIds, and arrays of (possibly-absent) embedded documents. -/
inductive Value where
  | str : String → Value
  | int : Int → Value
  | bool : Bool → Value
  | null : Value
  | oid : Nat → Value
  | docs : List (Option (List (String × Value))) → Value

/-- A stored document: an ordered mapping from field name to value. -/
abbrev Doc := List (String × Value)

mutual

/-- Structural equality of stored values. -/
def Value.beq : Value → Value → Bool
  | .str a, .str b => a == b
  | .int a, .int b => a == b
  | .bool a, .bool b => a == b
  | .null, .null => true
  | .oid a, .oid b => a == b
  | .docs a, .docs b => Value.beqDocs a b
  | _, _ => false

def Value.beqDocs : List (Option (List (String × Value))) → List (Option (List (String × Value))) → Bool
  | [], [] => true
  | none :: as, none :: bs => Value.beqDocs as bs
  | some a :: as, some b :: bs => Value.beqDoc a b && Value.beqDocs as bs
  | _, _ => false

def Value.beqDoc : List (String × Value) → List (String × Value) → Bool
  | [], [] => true
  | (k, a) :: as, (l, b) :: bs => k == l && Value.beq a b && Value.beqDoc as bs
  | _, _ => false

end

instance : BEq Value := ⟨Value.beq⟩

/-- First value stored under key `k` (Python dict access / BSON field lookup). -/
def dget (d : Doc) (k : String) : Option Value := List.lookup k d

/-- `dict.pop(k)`: the document without key `k`. -/
def removeKey (d : Doc) (k : String) : Doc := d.filter (fun p => p.1 ≠ k)

/-- `d[k] = v`: replace the value at `k` in place, appending when absent. -/
def setKey : Doc → String → Value → Doc
  | [], k, v => [(k, v)]
  | (k', v') :: rest, k, v =>
      if k' = k then (k, v) :: rest else (k', v') :: setKey rest k v

/-- The field names of a document. -/
def keys (d : Doc) : List String := d.map Prod.fst

/-- Python `str()` of a stored value; on a native ObjectId it is the canonical
encoded identifier. -/
def pyStr : Value → String
  | .str s => s
  | .int n => toString n
  | .bool b => if b then "True" else "False"
  | .null => "None"
  | .oid o => encodeOID o
  | .docs _ => "[...]"

/-! ## Document normalizer (`to_str_id` in src/main.py) -/

/-- `to_str_id`: `None` passes through; otherwise copy the document, and when
`_id` is present pop it and set `id` to its string form. -/
def to_str_id : Option Doc → Option Doc
  | none => none
  | some doc =>
      match dget doc "_id" with
      | some v => some (setKey (removeKey doc "_id") "id" (Value.str (pyStr v)))
      | none => some doc

/-! ## Store state and queries -/

/-- A filter matches a document when every filter key is stored with exactly
the filter's value (MongoDB conjunction of field-equality constraints). -/
def matchesQuery (q : Doc) (d : Doc) : Bool :=
  q.all (fun kv => dget d kv.1 == some kv.2)

/-- `collection.find_one(q)`: the first stored document matching `q`. -/
def findOne (coll : List Doc) (q : Doc) : Option Doc :=
  coll.find? (matchesQuery q)

/-- `collection.find(q)`: all stored documents matching `q`, in storage order. -/
def findMany (coll : List Doc) (q : Doc) : List Doc :=
  coll.filter (matchesQuery q)

/-- The document store: one list of documents per collection used by the app,
plus the next native identifier the store will assign. -/
structure DB where
  nextId : Nat
  marine : List Doc
  piratecrew : List Doc
  piratemember : List Doc
  event : List Doc

/-- Modelled from the spec: `get_documents` lives in the repository's
`database` module, which is not under src/. Per §4.4 it retrieves all
documents matching the filter (each filter key an exact-equality constraint),
optionally truncated to the first `limit` results in the store's order. -/
def get_documents (coll : List Doc) (query : Doc) (limit : Option Int) : List Doc :=
  let matched := coll.filter (matchesQuery query)
  match limit with
  | none => matched
  | some n => matched.take n.toNat

/-! ## Schemas (src/schemas.py) -/

/-- `Marine` pydantic model. -/
structure Marine where
  name : String
  rank : String
  bio : Option String
  avatar_url : Option String

/-- `PirateCrew` pydantic model. -/
structure PirateCrew where
  name : String
  sea : String
  description : Option String
  emblem_url : Option String
  crew_of_month : Bool

/-- `PirateMember` pydantic model (bounty validated non-negative, `ge=0`). -/
structure PirateMember where
  crew_id : String
  name : String
  role : Option String
  bounty : Int
  avatar_url : Option String

/-- `EventResultItem` pydantic model. -/
structure EventResultItem where
  category : String
  winner : String
  runner_up : Option String
  notes : Option String

/-- `Event` pydantic model (`date` as a timestamp). -/
structure Event where
  title : String
  description : Option String
  date : Int
  status : String
  banner_url : Option String
  results : Option (List EventResultItem)

/-- An optional string field as stored (`None` → null). -/
def optStr : Option String → Value
  | none => .null
  | some s => .str s

/-- `marine.dict()` as a stored document body. -/
def marineToDoc (m : Marine) : Doc :=
  [("name", .str m.name), ("rank", .str m.rank), ("bio", optStr m.bio),
   ("avatar_url", optStr m.avatar_url)]

/-- `crew.dict()` as a stored document body. -/
def crewToDoc (c : PirateCrew) : Doc :=
  [("name", .str c.name), ("sea", .str c.sea), ("description", optStr c.description),
   ("emblem_url", optStr c.emblem_url), ("crew_of_month", .bool c.crew_of_month)]

/-- `member.dict()` as a stored document body. -/
def memberToDoc (m : PirateMember) : Doc :=
  [("crew_id", .str m.crew_id), ("name", .str m.name), ("role", optStr m.role),
   ("bounty", .int m.bounty), ("avatar_url", optStr m.avatar_url)]

/-- `item.dict()` as an embedded document. -/
def itemToDoc (i : EventResultItem) : Doc :=
  [("category", .str i.category), ("winner", .str i.winner),
   ("runner_up", optStr i.runner_up), ("notes", optStr i.notes)]

/-- `event.dict()` as a stored document body. -/
def eventToDoc (e : Event) : Doc :=
  [("title", .str e.title), ("description", optStr e.description),
   ("date", .int e.date), ("status", .str e.status),
   ("banner_url", optStr e.banner_url),
   ("results", match e.results with
     | none => .null
     | some items => .docs (items.map (fun i => some (itemToDoc i))))]

/-- Pydantic validation of a `PirateMember` request body: `crew_id` and `name`
required strings, `role`/`avatar_url` optional strings, `bounty` an integer
with `ge=0` defaulting to 0; any violation rejects the body. -/
def validatePirateMember (body : Doc) : Option PirateMember :=
  match dget body "crew_id", dget body "name" with
  | some (.str cid), some (.str nm) =>
      let role? : Option (Option String) :=
        match dget body "role" with
        | none => some none
        | some .null => some none
        | some (.str r) => some (some r)
        | some _ => none
      let bounty? : Option Int :=
        match dget body "bounty" with
        | none => some 0
        | some (.int b) => if 0 ≤ b then some b else none
        | some _ => none
      let avatar? : Option (Option String) :=
        match dget body "avatar_url" with
        | none => some none
        | some .null => some none
        | some (.str a) => some (some a)
        | some _ => none
      match role?, bounty?, avatar? with
      | some role, some bounty, some avatar =>
          some ⟨cid, nm, role, bounty, avatar⟩
      | _, _, _ => none
  | _, _ => none

/-! ## Repository create operations -/

/-- Modelled from the spec: `create_document` lives in the repository's
`database` module, which is not under src/. Per §4.4 it inserts the record
into the named collection under a freshly assigned native identifier and
returns the encoded identifier. Marine collection instance. -/
def create_document_marine (db : DB) (m : Marine) : String × DB :=
  let oid := db.nextId
  (encodeOID oid,
   { db with nextId := oid + 1,
             marine := db.marine ++ [("_id", Value.oid oid) :: marineToDoc m] })

/-- Modelled from the spec: `create_document` (see `create_document_marine`),
piratecrew collection instance. -/
def create_document_crew (db : DB) (c : PirateCrew) : String × DB :=
  let oid := db.nextId
  (encodeOID oid,
   { db with nextId := oid + 1,
             piratecrew := db.piratecrew ++ [("_id", Value.oid oid) :: crewToDoc c] })

/-- Modelled from the spec: `create_document` (see `create_document_marine`),
piratemember collection instance. -/
def create_document_member (db : DB) (m : PirateMember) : String × DB :=
  let oid := db.nextId
  (encodeOID oid,
   { db with nextId := oid + 1,
             piratemember := db.piratemember ++ [("_id", Value.oid oid) :: memberToDoc m] })

/-- Modelled from the spec: `create_document` (see `create_document_marine`),
event collection instance. -/
def create_document_event (db : DB) (e : Event) : String × DB :=
  let oid := db.nextId
  (encodeOID oid,
   { db with nextId := oid + 1,
             event := db.event ++ [("_id", Value.oid oid) :: eventToDoc e] })

/-! ## Route handlers (src/main.py) -/

/-- An HTTP error: status code and detail string. -/
abbrev HErr := Nat × String

/-- `GET /api/crews`: builds the filter from the optional `sea` and
`crew_of_month` query parameters (`if sea:` is Python truthiness, so an empty
string adds no key; `crew_of_month` is tested against `None`) and returns the
normalized matches. -/
def list_crews (db : DB) (sea : Option String) (crew_of_month : Option Bool) :
    List (Option Doc) :=
  let query : Doc :=
    (match sea with
     | some s => if s = "" then [] else [("sea", Value.str s)]
     | none => []) ++
    (match crew_of_month with
     | some b => [("crew_of_month", Value.bool b)]
     | none => [])
  (get_documents db.piratecrew query none).map (fun d => to_str_id (some d))

/-- `GET /api/members`: `q = {"crew_id": crew_id} if crew_id else {}`. -/
def list_members (db : DB) (crew_id : Option String) : List (Option Doc) :=
  let q : Doc :=
    match crew_id with
    | some s => if s = "" then [] else [("crew_id", Value.str s)]
    | none => []
  (get_documents db.piratemember q none).map (fun d => to_str_id (some d))

/-- `GET /api/events`: `q = {"status": status} if status else {}`. -/
def list_events (db : DB) (status : Option String) : List (Option Doc) :=
  let q : Doc :=
    match status with
    | some s => if s = "" then [] else [("status", Value.str s)]
    | none => []
  (get_documents db.event q none).map (fun d => to_str_id (some d))

/-- `GET /api/crews/{crew_id}`: decode the identifier (400 when malformed),
fetch the crew (404 when absent), normalize it, fetch the members whose
`crew_id` equals the crew's encoded `id`, and attach them as `members`.
A missing `id` key on the normalized crew would raise (500); it cannot occur
for stored documents. -/
def get_crew (db : DB) (crew_id : String) : Except HErr Doc :=
  match decodeOID crew_id with
  | none => .error (400, "Invalid crew id")
  | some o =>
    match findOne db.piratecrew [("_id", Value.oid o)] with
    | none => .error (404, "Crew not found")
    | some doc =>
      match to_str_id (some doc) with
      | none => .error (500, "unreachable")
      | some crew =>
        match dget crew "id" with
        | none => .error (500, "KeyError")
        | some cid =>
          let members := findMany db.piratemember [("crew_id", cid)]
          .ok (setKey crew "members"
                (Value.docs (members.map (fun m => to_str_id (some m)))))

/-- `POST /api/members`: decode `member.crew_id` (400 when malformed), check
the crew exists (404 otherwise), and only then insert; returns the new
encoded identifier and the resulting store. -/
def create_member (db : DB) (member : PirateMember) : Except HErr String × DB :=
  match decodeOID member.crew_id with
  | none => (.error (400, "Invalid crew id"), db)
  | some o =>
    match findOne db.piratecrew [("_id", Value.oid o)] with
    | none => (.error (404, "Crew not found"), db)
    | some _ =>
      let r := create_document_member db member
      (.ok r.1, r.2)

/-- `POST /api/members` including the framework's body validation: the handler
only runs on a body pydantic accepts; a shape violation is rejected (422)
before the handler — and hence any store access — is reached. -/
def create_member_endpoint (db : DB) (body : Doc) : Except HErr String × DB :=
  match validatePirateMember body with
  | none => (.error (422, "validation error"), db)
  | some m => create_member db m

/-- Bounty sort key: the stored `bounty` field (always an integer here). -/
def getBounty (d : Doc) : Int :=
  match dget d "bounty" with
  | some (.int b) => b
  | _ => 0

/-- Insert into a list kept in descending `f`-order. -/
def insertDesc (f : Doc → Int) (x : Doc) : List Doc → List Doc
  | [] => [x]
  | y :: ys => if f y ≤ f x then x :: y :: ys else y :: insertDesc f x ys

/-- Sort in descending `f`-order (`cursor.sort(key, -1)`; ties unspecified). -/
def sortDesc (f : Doc → Int) : List Doc → List Doc
  | [] => []
  | x :: xs => insertDesc f x (sortDesc f xs)

/-- `cursor.limit(n)` (MongoDB semantics): `0` means no limit, a nonzero `n`
returns at most `|n|` documents. -/
def mongoLimit (n : Int) (xs : List Doc) : List Doc :=
  if n = 0 then xs else xs.take n.natAbs

/-- `GET /api/leaderboard` handler body:
`db["piratemember"].find({}).sort("bounty", -1).limit(limit)`, normalized. -/
def leaderboard (db : DB) (limit : Int) : List (Option Doc) :=
  (mongoLimit limit (sortDesc getBounty (findMany db.piratemember []))).map
    (fun d => to_str_id (some d))

/-- `GET /api/leaderboard` with its query parameter: `limit: int = 10`, so an
absent parameter means 10. -/
def leaderboard_endpoint (db : DB) (limit : Option Int) : List (Option Doc) :=
  leaderboard db (limit.getD 10)

/-- Spec-side description of a crew's embedded member list (§4.5): the
normalized members whose stored `crew_id` string equals the crew's encoded
identifier; compared against what `get_crew` actually attaches. -/
def crewMembersOf (db : DB) (o : Nat) : List (Option Doc) :=
  (db.piratemember.filter
      (fun m => dget m "crew_id" == some (Value.str (encodeOID o)))).map
    (fun m => to_str_id (some m))

/-! ## Seeding routine (`POST /api/admin/seed`) -/

/-- The per-collection insert counts reported by the seed endpoint. -/
structure SeedCreated where
  marines : Nat
  crews : Nat
  members : Nat
  events : Nat

/-- First fixture Marine. -/
def seedMarine1 : Marine :=
  ⟨"Sakazuki (Akainu)", "Fleet Admiral", some "Absolute Justice proponent", none⟩

/-- Second fixture Marine. -/
def seedMarine2 : Marine :=
  ⟨"Borsalino (Kizaru)", "Admiral", some "Light-speed tactician", none⟩

/-- The fixture Marines inserted by the seed routine. -/
def seedMarineFixtures : List Marine := [seedMarine1, seedMarine2]

/-- The fixture crews inserted by the seed routine. -/
def seedCrewFixtures : List PirateCrew :=
  [⟨"Straw Hat Pirates", "Grand Line", some "Led by Monkey D. Luffy", none, true⟩,
   ⟨"Red-Haired Pirates", "Grand Line", some "Crew of Emperor Shanks", none, false⟩,
   ⟨"Arlong Pirates", "East Blue", some "Fish-man supremacists", none, false⟩]

/-- The fixture members, with crew references resolved through the
name-to-identifier map built from the freshly inserted crews. -/
def seedMemberFixtures (crew_map : String → String) : List PirateMember :=
  [⟨crew_map "Straw Hat Pirates", "Monkey D. Luffy", some "Captain", 3000000000, none⟩,
   ⟨crew_map "Straw Hat Pirates", "Roronoa Zoro", some "Swordsman", 1111000000, none⟩,
   ⟨crew_map "Straw Hat Pirates", "Nami", some "Navigator", 366000000, none⟩,
   ⟨crew_map "Red-Haired Pirates", "Shanks", some "Captain", 4048900000, none⟩,
   ⟨crew_map "Arlong Pirates", "Arlong", some "Captain", 20000000, none⟩]

/-- The fixture events inserted by the seed routine (`date` is the current
time, passed in explicitly). -/
def seedEventFixtures (now : Int) : List Event :=
  [⟨"Battle of Marineford Anniversary", some "Commemoration event with trivia and duels",
    now, "upcoming", none, none⟩,
   ⟨"Grandline Cup", some "PvP tournament results posted", now, "completed", none, none⟩]

/-- The seed loop over Marines: insert each in order, counting the inserts. -/
def seedInsertMarines : DB → List Marine → DB × Nat
  | db, [] => (db, 0)
  | db, m :: ms =>
    let r := create_document_marine db m
    let rest := seedInsertMarines r.2 ms
    (rest.1, rest.2 + 1)

/-- The seed loop over crews: insert each in order, collecting `(name, id)`
pairs and counting the inserts. -/
def seedInsertCrews : DB → List PirateCrew → DB × List (String × String) × Nat
  | db, [] => (db, [], 0)
  | db, c :: cs =>
    let r := create_document_crew db c
    let rest := seedInsertCrews r.2 cs
    (rest.1, (c.name, r.1) :: rest.2.1, rest.2.2 + 1)

/-- The seed loop over members: insert each in order, counting the inserts. -/
def seedInsertMembers : DB → List PirateMember → DB × Nat
  | db, [] => (db, 0)
  | db, m :: ms =>
    let r := create_document_member db m
    let rest := seedInsertMembers r.2 ms
    (rest.1, rest.2 + 1)

/-- The seed loop over events: insert each in order, counting the inserts. -/
def seedInsertEvents : DB → List Event → DB × Nat
  | db, [] => (db, 0)
  | db, e :: es =>
    let r := create_document_event db e
    let rest := seedInsertEvents r.2 es
    (rest.1, rest.2 + 1)

/-- `POST /api/admin/seed`: each collection's fixture block runs when `force`
is set or the collection's document count is zero
(`estimated_document_count() == 0`); crews and members seed together, with the
member fixtures referencing the new crew identifiers through a name map. -/
def seed_data (db : DB) (force : Bool) (now : Int) : SeedCreated × DB :=
  let s1 :=
    if force || db.marine.length == 0 then
      seedInsertMarines db seedMarineFixtures
    else (db, 0)
  let db1 := s1.1
  let s2 :=
    if force || db1.piratecrew.length == 0 then
      let r := seedInsertCrews db1 seedCrewFixtures
      let crew_map := fun n => (List.lookup n r.2.1).getD ""
      let r2 := seedInsertMembers r.1 (seedMemberFixtures crew_map)
      (r2.1, r.2.2, r2.2)
    else (db1, 0, 0)
  let db2 := s2.1
  let s3 :=
    if force || db2.event.length == 0 then
      seedInsertEvents db2 (seedEventFixtures now)
    else (db2, 0)
  (⟨s1.2, s2.2.1, s2.2.2, s3.2⟩, s3.1)

/-! ## Concrete states used to instantiate and test the claims -/

/-- An empty store. -/
def emptyDB : DB := ⟨0, [], [], [], []⟩

/-- A stored member document with the given identifier, crew reference, name,
role and bounty. -/
def mkMemberDoc (oid : Nat) (cid : String) (nm role : String) (bounty : Int) : Doc :=
  [("_id", Value.oid oid), ("crew_id", Value.str cid), ("name", Value.str nm),
   ("role", Value.str role), ("bounty", Value.int bounty), ("avatar_url", Value.null)]

/-- A stored crew document with the given identifier, name and sea. -/
def mkCrewDoc (oid : Nat) (nm sea : String) (com : Bool) : Doc :=
  [("_id", Value.oid oid), ("name", Value.str nm), ("sea", Value.str sea),
   ("description", Value.null), ("emblem_url", Value.null),
   ("crew_of_month", Value.bool com)]

/-- A store with eleven members of bounties 0..10 (enough to separate a
leaderboard limit of 0 from the default of 10). -/
def exDB1 : DB :=
  ⟨100, [], [],
   (List.range 11).map (fun i => mkMemberDoc i (encodeOID 50) s!"pirate{i}" "crew" (Int.ofNat i)),
   []⟩

/-- The three seeded Straw Hat members, stored out of bounty order. -/
def exDB7 : DB :=
  ⟨10, [], [mkCrewDoc 0 "Straw Hat Pirates" "Grand Line" true],
   [mkMemberDoc 1 (encodeOID 0) "Nami" "Navigator" 366000000,
    mkMemberDoc 2 (encodeOID 0) "Monkey D. Luffy" "Captain" 3000000000,
    mkMemberDoc 3 (encodeOID 0) "Roronoa Zoro" "Swordsman" 1111000000],
   []⟩

/-- Crews for the exact-equality filter test: one sea is a strict superstring
of the other. -/
def exDB3 : DB :=
  ⟨10, [],
   [mkCrewDoc 0 "Arlong Pirates" "East Blue" false,
    mkCrewDoc 1 "Imposters" "East Blue Sea" false,
    mkCrewDoc 2 "Red-Haired Pirates" "Grand Line" false],
   [], []⟩

/-- A store holding one crew and no members. -/
def exDB5 : DB :=
  ⟨10, [], [mkCrewDoc 3 "Red-Haired Pirates" "Grand Line" false], [], []⟩

/-- A store with a non-empty Marine collection. -/
def exDB6 : DB :=
  ⟨10, [("_id", Value.oid 0) :: marineToDoc seedMarine1], [], [], []⟩

/-- A member body whose `crew_id` decodes but matches no stored crew. -/
def orphanMember : PirateMember :=
  ⟨encodeOID 99, "Buggy", some "Captain", 15000000, none⟩

/-- A member request body with a negative bounty. -/
def negBountyBody : Doc :=
  [("crew_id", Value.str (encodeOID 3)), ("name", Value.str "Buggy"),
   ("bounty", Value.int (-1))]

/-- A stored document with an ObjectId identifier and ordinary fields. -/
def exDoc4 : Doc :=
  [("_id", Value.oid 10), ("name", Value.str "Nami"), ("bounty", Value.int 366000000)]

/-- The canonical encoding of identifier 10, with its one hex letter upper-cased:
decodes to the same identifier, but is a different string. -/
def upperId : String := "00000000000000000000000A"

/-- A store holding the crew with identifier 10 and no members. -/
def db10 : DB :=
  ⟨11, [], [mkCrewDoc 10 "Straw Hat Pirates" "Grand Line" true], [], []⟩

/-- A member referencing crew 10 through the non-canonical `upperId` form. -/
def member10 : PirateMember :=
  ⟨upperId, "Nami", some "Navigator", 366000000, none⟩

/-! ## Helper lemmas -/

theorem dget_cons (p : String × Value) (d : Doc) (k : String) :
    dget (p :: d) k = if k = p.1 then some p.2 else dget d k := by
  obtain ⟨k', v'⟩ := p
  simp only [dget, List.lookup]
  by_cases h : k = k'
  · simp [h]
  · have hb : (k == k') = false := beq_eq_false_iff_ne.mpr h
    simp [hb, h]

theorem removeKey_cons (p : String × Value) (d : Doc) (k : String) :
    removeKey (p :: d) k = if p.1 = k then removeKey d k else p :: removeKey d k := by
  by_cases h : p.1 = k <;> simp [removeKey, h]

theorem dget_setKey_self (d : Doc) (k : String) (v : Value) :
    dget (setKey d k v) k = some v := by
  induction d with
  | nil => simp [setKey, dget_cons]
  | cons p rest ih =>
    by_cases h : p.1 = k
    · simp [setKey, h, dget_cons]
    · simp [setKey, h, dget_cons, Ne.symm h, ih]

theorem dget_setKey_ne (d : Doc) (k k' : String) (v : Value) (h : k' ≠ k) :
    dget (setKey d k v) k' = dget d k' := by
  induction d with
  | nil => simp [setKey, dget_cons, h, dget]
  | cons p rest ih =>
    by_cases hp : p.1 = k
    · subst hp
      simp [setKey, dget_cons, h, ih]
    · simp [setKey, hp, dget_cons, ih]

theorem dget_removeKey_self (d : Doc) (k : String) :
    dget (removeKey d k) k = none := by
  induction d with
  | nil => simp [removeKey, dget]
  | cons p rest ih =>
    rw [removeKey_cons]
    by_cases h : p.1 = k
    · simpa [h] using ih
    · rw [if_neg h, dget_cons, if_neg (fun hk => h hk.symm)]
      exact ih

theorem dget_removeKey_ne (d : Doc) (k k' : String) (h : k' ≠ k) :
    dget (removeKey d k) k' = dget d k' := by
  induction d with
  | nil => simp [removeKey]
  | cons p rest ih =>
    rw [removeKey_cons]
    by_cases hp : p.1 = k
    · rw [if_pos hp, ih, dget_cons, if_neg (fun hk => h (hk.trans hp))]
    · rw [if_neg hp, dget_cons, dget_cons, ih]

theorem value_beq_str_iff (v : Value) (s : String) :
    (v == Value.str s) = true ↔ v = Value.str s := by
  cases v <;> simp [BEq.beq, Value.beq]

theorem value_beq_oid_iff (v : Value) (o : Nat) :
    (v == Value.oid o) = true ↔ v = Value.oid o := by
  cases v <;> simp [BEq.beq, Value.beq]

theorem value_beq_bool_iff (v : Value) (b : Bool) :
    (v == Value.bool b) = true ↔ v = Value.bool b := by
  cases v <;> simp [BEq.beq, Value.beq]

theorem some_beq_some (v w : Value) :
    ((some v : Option Value) == some w) = (v == w) := rfl

theorem none_beq_some (w : Value) :
    ((none : Option Value) == some w) = false := rfl

theorem odget_beq_str_iff (o : Option Value) (s : String) :
    (o == some (Value.str s)) = true ↔ o = some (Value.str s) := by
  cases o with
  | none => simp [none_beq_some]
  | some v => rw [some_beq_some, value_beq_str_iff]; simp

theorem odget_beq_oid_iff (o : Option Value) (i : Nat) :
    (o == some (Value.oid i)) = true ↔ o = some (Value.oid i) := by
  cases o with
  | none => simp [none_beq_some]
  | some v => rw [some_beq_some, value_beq_oid_iff]; simp

theorem odget_beq_bool_iff (o : Option Value) (b : Bool) :
    (o == some (Value.bool b)) = true ↔ o = some (Value.bool b) := by
  cases o with
  | none => simp [none_beq_some]
  | some v => rw [some_beq_some, value_beq_bool_iff]; simp

theorem matchesQuery_single (k : String) (v : Value) (d : Doc) :
    matchesQuery [(k, v)] d = (dget d k == some v) := by
  simp [matchesQuery]

theorem filter_matchesQuery_nil (l : List Doc) :
    List.filter (matchesQuery []) l = l := by
  induction l with
  | nil => rfl
  | cons d rest ih => simp [List.filter_cons, matchesQuery, ih]

theorem filter_matchesQuery_single (k : String) (v : Value) (l : List Doc) :
    List.filter (matchesQuery [(k, v)]) l =
      List.filter (fun d => dget d k == some v) l := by
  apply List.filter_congr
  intro d _
  exact matchesQuery_single k v d

theorem findMany_nil (coll : List Doc) : findMany coll [] = coll := by
  simp [findMany, filter_matchesQuery_nil]

theorem get_documents_nolimit (coll : List Doc) (q : Doc) :
    get_documents coll q none = coll.filter (matchesQuery q) := rfl

/-! Sorting lemmas for the leaderboard. -/

theorem insertDesc_perm (f : Doc → Int) (x : Doc) (l : List Doc) :
    (insertDesc f x l).Perm (x :: l) := by
  induction l with
  | nil => exact List.Perm.refl _
  | cons y ys ih =>
    by_cases h : f y ≤ f x
    · simp [insertDesc, h]
    · simp only [insertDesc, if_neg h]
      exact (ih.cons y).trans (List.Perm.swap x y ys)

theorem sortDesc_perm (f : Doc → Int) (l : List Doc) :
    (sortDesc f l).Perm l := by
  induction l with
  | nil => exact List.Perm.refl _
  | cons x xs ih => exact (insertDesc_perm f x _).trans (ih.cons x)

theorem mem_insertDesc (f : Doc → Int) (x z : Doc) (l : List Doc) :
    z ∈ insertDesc f x l ↔ z = x ∨ z ∈ l := by
  have := (insertDesc_perm f x l).mem_iff (a := z)
  simpa using this

theorem insertDesc_sorted (f : Doc → Int) (x : Doc) (l : List Doc)
    (h : l.Pairwise (fun a b => f b ≤ f a)) :
    (insertDesc f x l).Pairwise (fun a b => f b ≤ f a) := by
  induction l with
  | nil => simp [insertDesc]
  | cons y ys ih =>
    rw [List.pairwise_cons] at h
    obtain ⟨hy, hys⟩ := h
    by_cases hle : f y ≤ f x
    · simp only [insertDesc, if_pos hle]
      refine List.Pairwise.cons ?_ (List.Pairwise.cons hy hys)
      intro z hz
      rcases List.mem_cons.mp hz with rfl | hz
      · exact hle
      · exact le_trans (hy z hz) hle
    · simp only [insertDesc, if_neg hle]
      refine List.Pairwise.cons ?_ (ih hys)
      intro z hz
      rcases (mem_insertDesc f x z ys).mp hz with rfl | hz
      · exact le_of_lt (lt_of_not_le hle)
      · exact hy z hz

theorem sortDesc_sorted (f : Doc → Int) (l : List Doc) :
    (sortDesc f l).Pairwise (fun a b => f b ≤ f a) := by
  induction l with
  | nil => simp [sortDesc]
  | cons x xs ih => exact insertDesc_sorted f x _ ih

/-! Preservation lemmas: the non-Marine seed loops never touch the Marine
collection. -/

theorem seedInsertCrews_marine (db : DB) (cs : List PirateCrew) :
    (seedInsertCrews db cs).1.marine = db.marine := by
  induction cs generalizing db with
  | nil => rfl
  | cons c cs ih => simp [seedInsertCrews, ih, create_document_crew]

theorem seedInsertMembers_marine (db : DB) (ms : List PirateMember) :
    (seedInsertMembers db ms).1.marine = db.marine := by
  induction ms generalizing db with
  | nil => rfl
  | cons m ms ih => simp [seedInsertMembers, ih, create_document_member]

theorem seedInsertEvents_marine (db : DB) (es : List Event) :
    (seedInsertEvents db es).1.marine = db.marine := by
  induction es generalizing db with
  | nil => rfl
  | cons e es ih => simp [seedInsertEvents, ih, create_document_event]

/-! ## Claim theorems -/

/-- C4: the normalizer maps `None` to `None`; on a stored document carrying an
internal `_id` it removes `_id`, adds an `id` field holding the encoded string
form, and leaves every other field unchanged. -/
theorem C4_normalizer (d : Doc) (o : Nat) (h : dget d "_id" = some (Value.oid o)) :
    to_str_id none = none ∧
    (to_str_id (some d)).bind (fun e => dget e "_id") = none ∧
    (to_str_id (some d)).bind (fun e => dget e "id") = some (Value.str (encodeOID o)) ∧
    ∀ k, k ≠ "_id" → k ≠ "id" →
      (to_str_id (some d)).bind (fun e => dget e k) = dget d k := by
  have hu : to_str_id (some d) =
      some (setKey (removeKey d "_id") "id" (Value.str (encodeOID o))) := by
    simp [to_str_id, h, pyStr]
  refine ⟨rfl, ?_, ?_, ?_⟩
  · rw [hu]
    simp only [Option.some_bind]
    rw [dget_setKey_ne _ _ _ _ (by decide), dget_removeKey_self]
  · rw [hu]
    simp only [Option.some_bind]
    exact dget_setKey_self _ _ _
  · intro k hk1 hk2
    rw [hu]
    simp only [Option.some_bind]
    rw [dget_setKey_ne _ _ _ _ hk2, dget_removeKey_ne _ _ _ hk1]

/-- Witness for C4 at a concrete stored document and field. -/
theorem C4_normalizer_witness :
    dget exDoc4 "_id" = some (Value.oid 10) ∧
    to_str_id none = none ∧
    (to_str_id (some exDoc4)).bind (fun e => dget e "_id") = none ∧
    (to_str_id (some exDoc4)).bind (fun e => dget e "id") =
      some (Value.str (encodeOID 10)) ∧
    (to_str_id (some exDoc4)).bind (fun e => dget e "name") = dget exDoc4 "name" :=
  ⟨rfl, (C4_normalizer exDoc4 10 rfl).1, (C4_normalizer exDoc4 10 rfl).2.1,
   (C4_normalizer exDoc4 10 rfl).2.2.1,
   (C4_normalizer exDoc4 10 rfl).2.2.2 "name" (by decide) (by decide)⟩

/-- C3: a supplied `sea` filter value is bound as a literal scalar in an
exact-equality constraint: the listing is precisely the crews whose stored
`sea` value equals the caller's string, the Boolean test used by the filter
coincides with propositional equality, and over a store holding the seas
"East Blue" and "East Blue Sea" only the exact match is returned. -/
theorem C3_exact_filter (db : DB) (s : String) (h : s ≠ "") :
    list_crews db (some s) none =
      (db.piratecrew.filter (fun c => dget c "sea" == some (Value.str s))).map
        (fun d => to_str_id (some d)) ∧
    (∀ c : Doc, (dget c "sea" == some (Value.str s)) = true ↔
      dget c "sea" = some (Value.str s)) ∧
    list_crews exDB3 (some "East Blue") none =
      [to_str_id (some (mkCrewDoc 0 "Arlong Pirates" "East Blue" false))] := by
  refine ⟨?_, fun c => odget_beq_str_iff _ s, ?_⟩
  · simp [list_crews, h, get_documents, filter_matchesQuery_single]
  · rfl

/-- Witness for C3 at the concrete store and value "East Blue". -/
theorem C3_exact_filter_witness :
    ("East Blue" ≠ "") ∧
    list_crews exDB3 (some "East Blue") none =
      (exDB3.piratecrew.filter
          (fun c => dget c "sea" == some (Value.str "East Blue"))).map
        (fun d => to_str_id (some d)) ∧
    list_crews exDB3 (some "East Blue") none =
      [to_str_id (some (mkCrewDoc 0 "Arlong Pirates" "East Blue" false))] :=
  ⟨by decide, (C3_exact_filter exDB3 "East Blue" (by decide)).1,
   (C3_exact_filter exDB3 "East Blue" (by decide)).2.2⟩

/-- C9: an empty-string filter value contributes no key — listing with
`sea=""`, `crew_id=""` or `status=""` equals listing with the parameter
absent, which returns the whole collection normalized — while the Boolean
`crew_of_month` filter is applied even when it is `false`. -/
theorem C9_empty_string_filters (db : DB) :
    list_crews db (some "") none = list_crews db none none ∧
    list_members db (some "") = list_members db none ∧
    list_events db (some "") = list_events db none ∧
    list_crews db none none = db.piratecrew.map (fun d => to_str_id (some d)) ∧
    list_members db none = db.piratemember.map (fun d => to_str_id (some d)) ∧
    list_events db none = db.event.map (fun d => to_str_id (some d)) ∧
    list_crews db none (some false) =
      (db.piratecrew.filter
          (fun c => dget c "crew_of_month" == some (Value.bool false))).map
        (fun d => to_str_id (some d)) := by
  refine ⟨?_, ?_, ?_, ?_, ?_, ?_, ?_⟩ <;>
    simp [list_crews, list_members, list_events, get_documents,
      filter_matchesQuery_nil, filter_matchesQuery_single]

/-- C2: a member-creation request whose `crew_id` decodes but matches no
stored crew fails with 404 and leaves the store untouched; and whenever the
store does change, both the decode and the crew lookup succeeded and exactly
the requested member document was appended (validate-then-write). -/
theorem C2_member_guard (db : DB) (m : PirateMember) (o : Nat)
    (h1 : decodeOID m.crew_id = some o)
    (h2 : findOne db.piratecrew [("_id", Value.oid o)] = none) :
    create_member db m = (.error (404, "Crew not found"), db) ∧
    ∀ db' m', (create_member db' m').2 ≠ db' →
      ∃ o' crew, decodeOID m'.crew_id = some o' ∧
        findOne db'.piratecrew [("_id", Value.oid o')] = some crew ∧
        (create_member db' m').1 = .ok (encodeOID db'.nextId) ∧
        (create_member db' m').2.piratemember =
          db'.piratemember ++ [("_id", Value.oid db'.nextId) :: memberToDoc m'] := by
  constructor
  · simp [create_member, h1, h2]
  · intro db' m' hne
    cases hdec : decodeOID m'.crew_id with
    | none => exact absurd (by simp [create_member, hdec]) hne
    | some o' =>
      cases hf : findOne db'.piratecrew [("_id", Value.oid o')] with
      | none => exact absurd (by simp [create_member, hdec, hf]) hne
      | some crew =>
        exact ⟨o', crew, rfl, hf,
          by simp [create_member, hdec, hf, create_document_member],
          by simp [create_member, hdec, hf, create_document_member]⟩

/-- Witness for C2: a well-formed reference to the nonexistent crew 99. -/
theorem C2_member_guard_witness :
    decodeOID orphanMember.crew_id = some 99 ∧
    findOne exDB5.piratecrew [("_id", Value.oid 99)] = none ∧
    create_member exDB5 orphanMember = (.error (404, "Crew not found"), exDB5) :=
  ⟨rfl, rfl, (C2_member_guard exDB5 orphanMember 99 rfl rfl).1⟩

/-- C5: for an existing crew, the crew detail response carries a `members`
field that is always present and holds exactly the normalized members whose
stored `crew_id` string equals the crew's encoded identifier (empty list, not
a missing field, when none match). -/
theorem C5_crew_members (db : DB) (s : String) (o : Nat) (doc : Doc)
    (h1 : decodeOID s = some o)
    (h2 : findOne db.piratecrew [("_id", Value.oid o)] = some doc) :
    ∃ crew, to_str_id (some doc) = some crew ∧
      get_crew db s = .ok (setKey crew "members" (Value.docs (crewMembersOf db o))) ∧
      dget (setKey crew "members" (Value.docs (crewMembersOf db o))) "members" =
        some (Value.docs (crewMembersOf db o)) ∧
      ∀ m : Doc, (dget m "crew_id" == some (Value.str (encodeOID o))) = true ↔
        dget m "crew_id" = some (Value.str (encodeOID o)) := by
  have hmatch : matchesQuery [("_id", Value.oid o)] doc = true := List.find?_some h2
  rw [matchesQuery_single] at hmatch
  have hid : dget doc "_id" = some (Value.oid o) := (odget_beq_oid_iff _ o).mp hmatch
  have hu : to_str_id (some doc) =
      some (setKey (removeKey doc "_id") "id" (Value.str (encodeOID o))) := by
    simp [to_str_id, hid, pyStr]
  refine ⟨setKey (removeKey doc "_id") "id" (Value.str (encodeOID o)), hu, ?_, ?_, ?_⟩
  · simp only [get_crew, h1, h2, hu, dget_setKey_self]
    simp [crewMembersOf, findMany, filter_matchesQuery_single]
  · exact dget_setKey_self _ _ _
  · exact fun m => odget_beq_str_iff _ _

/-- Witness for C5: a crew with zero members yields `members = []`. -/
theorem C5_crew_members_witness :
    decodeOID (encodeOID 3) = some 3 ∧
    findOne exDB5.piratecrew [("_id", Value.oid 3)] =
      some (mkCrewDoc 3 "Red-Haired Pirates" "Grand Line" false) ∧
    (∃ crew, to_str_id (some (mkCrewDoc 3 "Red-Haired Pirates" "Grand Line" false)) =
        some crew ∧
      get_crew exDB5 (encodeOID 3) =
        .ok (setKey crew "members" (Value.docs (crewMembersOf exDB5 3))) ∧
      dget (setKey crew "members" (Value.docs (crewMembersOf exDB5 3))) "members" =
        some (Value.docs (crewMembersOf exDB5 3)) ∧
      ∀ m : Doc, (dget m "crew_id" == some (Value.str (encodeOID 3))) = true ↔
        dget m "crew_id" = some (Value.str (encodeOID 3))) ∧
    crewMembersOf exDB5 3 = [] :=
  ⟨rfl, rfl, C5_crew_members exDB5 (encodeOID 3) 3 _ rfl rfl, rfl⟩

/-- C7: for a positive limit the leaderboard is a descending-bounty ordering
of the stored members truncated to the first `n`; concretely, over bounties
[3000000000, 1111000000, 366000000] stored out of order, `topMembers(2)`
returns exactly the two highest, in descending order. -/
theorem C7_leaderboard (db : DB) (n : Int) (h : 0 < n) :
    (∃ sorted : List Doc, sorted.Perm db.piratemember ∧
       sorted.Pairwise (fun a b => getBounty b ≤ getBounty a) ∧
       leaderboard db n = (sorted.take n.natAbs).map (fun d => to_str_id (some d))) ∧
    leaderboard exDB7 2 =
      [to_str_id (some (mkMemberDoc 2 (encodeOID 0) "Monkey D. Luffy" "Captain" 3000000000)),
       to_str_id (some (mkMemberDoc 3 (encodeOID 0) "Roronoa Zoro" "Swordsman" 1111000000))] := by
  constructor
  · refine ⟨sortDesc getBounty db.piratemember, sortDesc_perm _ _, sortDesc_sorted _ _, ?_⟩
    simp [leaderboard, mongoLimit, findMany_nil, h.ne']
  · rfl

/-- Witness for C7 at the concrete store and limit 2. -/
theorem C7_leaderboard_witness :
    (0 : Int) < 2 ∧
    (∃ sorted : List Doc, sorted.Perm exDB7.piratemember ∧
       sorted.Pairwise (fun a b => getBounty b ≤ getBounty a) ∧
       leaderboard exDB7 2 =
         (sorted.take (2 : Int).natAbs).map (fun d => to_str_id (some d))) ∧
    leaderboard exDB7 2 =
      [to_str_id (some (mkMemberDoc 2 (encodeOID 0) "Monkey D. Luffy" "Captain" 3000000000)),
       to_str_id (some (mkMemberDoc 3 (encodeOID 0) "Roronoa Zoro" "Swordsman" 1111000000))] :=
  ⟨by decide, (C7_leaderboard exDB7 2 (by decide)).1, (C7_leaderboard exDB7 2 (by decide)).2⟩

/-- C1 counterexample: over eleven stored members, a limit of 0 is passed to
the store unchanged and returns all eleven documents, not the ten that the
claimed fallback to the default count would give. -/
theorem C1_default_counterexample :
    (0 : Int) ≤ 0 ∧ leaderboard exDB1 0 ≠ leaderboard exDB1 10 := by
  refine ⟨le_refl 0, fun h => ?_⟩
  have h1 : (leaderboard exDB1 0).length = 11 := by rfl
  rw [h] at h1
  have h2 : (leaderboard exDB1 10).length = 10 := by rfl
  rw [h2] at h1
  exact absurd h1 (by decide)

/-- C1 amended: an absent limit defaults to 10; a limit of exactly 0 returns
the whole sorted member list; any nonzero limit `n` (negative included)
returns the first `|n|` entries — MongoDB `limit` semantics, with no fallback
to the default count for non-positive values. -/
theorem C1_default_amended (db : DB) (n : Int) (hn : n ≠ 0) :
    leaderboard_endpoint db none = leaderboard_endpoint db (some 10) ∧
    leaderboard db 0 =
      (sortDesc getBounty db.piratemember).map (fun d => to_str_id (some d)) ∧
    leaderboard db n =
      ((sortDesc getBounty db.piratemember).take n.natAbs).map
        (fun d => to_str_id (some d)) := by
  refine ⟨rfl, ?_, ?_⟩
  · simp [leaderboard, mongoLimit, findMany_nil]
  · simp [leaderboard, mongoLimit, findMany_nil, hn]

/-- Witness for the amended C1 at limit -5. -/
theorem C1_default_amended_witness :
    ((-5 : Int) ≠ 0) ∧
    (leaderboard_endpoint exDB1 none = leaderboard_endpoint exDB1 (some 10) ∧
     leaderboard exDB1 0 =
       (sortDesc getBounty exDB1.piratemember).map (fun d => to_str_id (some d)) ∧
     leaderboard exDB1 (-5) =
       ((sortDesc getBounty exDB1.piratemember).take (-5 : Int).natAbs).map
         (fun d => to_str_id (some d))) :=
  ⟨by decide, C1_default_amended exDB1 (-5) (by decide)⟩

/-- C8: a member body pydantic rejects (here: negative bounty, missing or
mistyped required field) is refused before the handler runs: the response is
the validation error and the store is returned untouched, for every store;
in particular `bounty = -1` fails validation. -/
theorem C8_shape_validation (db : DB) (body : Doc)
    (h : validatePirateMember body = none) :
    create_member_endpoint db body = (.error (422, "validation error"), db) ∧
    validatePirateMember negBountyBody = none :=
  ⟨by simp [create_member_endpoint, h], rfl⟩

/-- Witness for C8 at the negative-bounty body. -/
theorem C8_shape_validation_witness :
    validatePirateMember negBountyBody = none ∧
    (create_member_endpoint exDB5 negBountyBody =
        (.error (422, "validation error"), exDB5) ∧
     validatePirateMember negBountyBody = none) :=
  ⟨rfl, C8_shape_validation exDB5 negBountyBody rfl⟩

/-- C10: the upper-cased form of crew 10's identifier decodes to the same
crew but differs from the canonical encoding; member creation accepts it and
stores it verbatim, and the crew detail join — raw string equality against
the canonical encoding — then misses the created member. -/
theorem C10_noncanonical_reference :
    decodeOID upperId = some 10 ∧
    upperId ≠ encodeOID 10 ∧
    (create_member db10 member10).1 = .ok (encodeOID 11) ∧
    ((create_member db10 member10).2.piratemember.map (fun d => dget d "crew_id")) =
      [some (Value.str upperId)] ∧
    ∃ resp, get_crew (create_member db10 member10).2 (encodeOID 10) = .ok resp ∧
      dget resp "members" = some (Value.docs []) := by
  exact ⟨rfl, by decide, rfl, rfl, ⟨_, rfl, rfl⟩⟩

/-- C6: with `force=false` and a non-empty Marine collection the seed inserts
zero Agents and leaves the collection as it was; with `force=true` it always
inserts exactly the two fixture Agents, whatever the store held. -/
theorem C6_seed_guard (db db' : DB) (now now' : Int) (h : db.marine ≠ []) :
    (seed_data db false now).2.marine = db.marine ∧
    (seed_data db false now).1.marines = 0 ∧
    (seed_data db' true now').1.marines = 2 ∧
    (seed_data db' true now').2.marine = db'.marine ++
      [("_id", Value.oid db'.nextId) :: marineToDoc seedMarine1,
       ("_id", Value.oid (db'.nextId + 1)) :: marineToDoc seedMarine2] := by
  have hm : (db.marine.length == 0) = false := by
    rw [beq_eq_false_iff_ne]
    exact fun hl => h (List.length_eq_zero.mp hl)
  refine ⟨?_, ?_, ?_, ?_⟩
  · simp only [seed_data, Bool.false_or, hm]
    rw [if_neg (by decide : ¬((false : Bool) = true))]
    split <;> split <;>
      simp [seedInsertCrews_marine, seedInsertMembers_marine, seedInsertEvents_marine]
  · simp [seed_data, hm]
  · simp [seed_data, seedInsertMarines, seedMarineFixtures]
  · simp [seed_data, seedInsertMarines, seedMarineFixtures, create_document_marine,
      seedInsertCrews_marine, seedInsertMembers_marine, seedInsertEvents_marine,
      List.append_assoc]

/-- Witness for C6 at a store with one stored Marine and the empty store. -/
theorem C6_seed_guard_witness :
    exDB6.marine ≠ [] ∧
    ((seed_data exDB6 false 0).2.marine = exDB6.marine ∧
     (seed_data exDB6 false 0).1.marines = 0 ∧
     (seed_data emptyDB true 0).1.marines = 2 ∧
     (seed_data emptyDB true 0).2.marine = emptyDB.marine ++
       [("_id", Value.oid emptyDB.nextId) :: marineToDoc seedMarine1,
        ("_id", Value.oid (emptyDB.nextId + 1)) :: marineToDoc seedMarine2]) :=
  ⟨by simp [exDB6], C6_seed_guard exDB6 emptyDB 0 0 (by simp [exDB6])⟩

end Grandline
